import Mathlib

/-
Verification development for the nucleo_h563zi timer / PWM / encoder driver layer.

Shallow embedding of the C sources into Lean:
  - Helper.c            : UIntDivideWithRound, UIntRoundingDivide, UIntCeilingDivide
  - PWM.c               : duty-cycle and frequency register calculations and the
                          PWM state machine (Init / Start / Stop / SetDutyCycle)
  - Timer.c             : channel validation and mode-claim functions
  - Mutex.c             : the no-RTOS boolean mutex variant
  - Encoder.c           : both revisions (the bare one and the mutex-guarded one)
  - DRV8870.c           : the dual-channel motor driver composition

Machine integers are modelled as Nat with explicit reduction modulo 2 to the 32
or 16 where the C performs a narrowing conversion or where unsigned wraparound
can occur.  C undefined behaviour (division or modulo by zero, out-of-bounds
array reads) is modelled by an Option result, none marking the undefined case.
-/

/-! Helper.c (src/unnamed/part_003) -/

/-- Modulus of 32-bit unsigned arithmetic. -/
def U32 : Nat := 4294967296

/-- Modulus of 16-bit unsigned arithmetic. -/
def U16 : Nat := 65536

/-- Embedding of UIntDivideWithRound: adds the rounding bias to the dividend in
32-bit arithmetic; if the addition wrapped (detected by the two comparisons in
the source) it falls back to plain truncating division.  The source asserts
divisor is nonzero; theorems carry that hypothesis. -/
def UIntDivideWithRound (dividend divisor round : Nat) : Nat :=
  let roundDividend := (dividend + round) % U32
  if roundDividend < dividend ∨ roundDividend < round then
    dividend / divisor
  else
    roundDividend / divisor

/-- Embedding of UIntRoundingDivide: round-half-up division, bias divisor / 2. -/
def UIntRoundingDivide (dividend divisor : Nat) : Nat :=
  UIntDivideWithRound dividend divisor (divisor / 2)

/-- Embedding of UIntCeilingDivide: ceiling division, bias divisor - 1. -/
def UIntCeilingDivide (dividend divisor : Nat) : Nat :=
  UIntDivideWithRound dividend divisor (divisor - 1)

/-! Mutex.c (src/unnamed/part_009), the variant without CMSIS RTOS2: a single
boolean acquired flag.  Acquire fails when the flag is already set, so a mutex
whose flag is set behaves as a lock on which Acquire always fails. -/

structure Mutex where
  acquired : Bool
deriving DecidableEq

/-- Embedding of Mutex_Acquire (no-RTOS variant).  The timeout parameter is
unused in this variant, mirroring the source. -/
def Mutex_Acquire (self : Mutex) (timeout_ms : Nat) : Bool × Mutex :=
  if self.acquired = true then (false, self)
  else (true, { acquired := true })

/-- Embedding of Mutex_Release (no-RTOS variant). -/
def Mutex_Release (self : Mutex) : Bool × Mutex :=
  if self.acquired = false then (false, self)
  else (true, { acquired := false })

/-! PWM.c (the revision appended to src/h563zit6/Drivers/ICACHE.c): unit
conversions and the stateful driver. -/

def TIM_MUTEX_TIMEOUT_MS : Nat := 5

def DUTY_CYCLE_MIN_TENTH_PCT : Nat := 0

def DUTY_CYCLE_MAX_TENTH_PCT : Nat := 1000

def TIM_REG_ARR_MAX : Nat := 65535

/-- Error codes of the PWM driver (PWM_Err_t). -/
inductive PWM_Err
  | none
  | nullParam
  | invalidParam
  | resourceBlocked
  | uninitialized
  | started
  | stopped
  | hal
deriving DecidableEq

/-- States of the PWM driver (State_t in PWM.c). -/
inductive PWM_State
  | uninitialized
  | stopped
  | started
deriving DecidableEq

/-- Register pair returned by the frequency search (FrequencyRegisters_t). -/
structure FrequencyRegisters_t where
  timRegARR : Nat
  timRegPSC : Nat
deriving DecidableEq

/-- Embedding of limitDutyCycle_tenthPct: clamp to 1000 (100.0 percent). -/
def limitDutyCycle_tenthPct (dutyCycle_tenthPct : Nat) : Nat :=
  if DUTY_CYCLE_MAX_TENTH_PCT < dutyCycle_tenthPct then DUTY_CYCLE_MAX_TENTH_PCT
  else dutyCycle_tenthPct

/-- Embedding of calculateFrequencyRegisters.  The prescaler is narrowed to
uint16 exactly as the cast in the source does; a zero prescaler after that
narrowing would make the source call UIntRoundingDivide with divisor zero,
which its assert forbids (undefined without asserts), modelled as none.
The NULL-pointer check of the out parameter has no counterpart here because
the result is returned by value. -/
def calculateFrequencyRegisters (switchingFrequency_hz sourceFrequency_hz maxOverflow : Nat) :
    Option (Except PWM_Err FrequencyRegisters_t) :=
  if switchingFrequency_hz = 0 ∨ sourceFrequency_hz = 0 ∨ maxOverflow = 0 then
    some (Except.error PWM_Err.invalidParam)
  else
    let cycles := sourceFrequency_hz / switchingFrequency_hz
    let overflow := if cycles < maxOverflow then cycles else maxOverflow
    if overflow < DUTY_CYCLE_MAX_TENTH_PCT then
      some (Except.error PWM_Err.invalidParam)
    else
      let prescaler := UIntCeilingDivide cycles overflow % U16
      if prescaler = 0 then none
      else
        let overflow2 := UIntRoundingDivide cycles prescaler % U16
        some (Except.ok { timRegARR := overflow2, timRegPSC := prescaler - 1 })

/-- Embedding of calculateCCRx.  The product of the uint16 duty cycle and the
uint32 auto-reload value is 32-bit arithmetic, hence the explicit modulus. -/
def calculateCCRx (dutyCycle_tenthPct timRegARR : Nat) : Nat :=
  if timRegARR = 0 then timRegARR
  else UIntRoundingDivide (dutyCycle_tenthPct * timRegARR % U32) DUTY_CYCLE_MAX_TENTH_PCT

/-- Embedding of calculateDutyCycle_tenthPct; the uint16 return narrows the
32-bit quotient. -/
def calculateDutyCycle_tenthPct (timRegARR timRegCCRx : Nat) : Nat :=
  if timRegARR = 0 then timRegARR
  else UIntRoundingDivide (timRegCCRx * DUTY_CYCLE_MAX_TENTH_PCT % U32) timRegARR % U16

/-- Embedding of calculateSwitchingFrequency_hz; prescaler times overflow is
32-bit arithmetic. -/
def calculateSwitchingFrequency_hz (sourceFrequency_hz prescaler overflow : Nat) : Nat :=
  UIntRoundingDivide sourceFrequency_hz (prescaler * overflow % U32)

/-- State of one PWM instance together with the TIM registers it drives and the
mutex guarding them.  The C PWM struct holds the state field and references the
timer; the registers and the mutex live behind that reference and are the
observable hardware state of the instance. -/
structure PWMSys where
  state : PWM_State
  timRegPSC : Nat
  timRegARR : Nat
  timRegCCR : Nat
  mutex : Mutex
deriving DecidableEq

/-- Embedding of PWM_Init.  The source clock frequency read through
Timer_GetClockFrequency_hz is passed as a parameter.  Outer none models the
assert-failure path inside calculateFrequencyRegisters. -/
def PWM_Init (self : PWMSys) (switchingFrequency_hz dutyCycle_tenthPct sourceFrequency_hz : Nat) :
    Option (PWM_Err × PWMSys) :=
  match calculateFrequencyRegisters switchingFrequency_hz sourceFrequency_hz TIM_REG_ARR_MAX with
  | Option.none => Option.none
  | some (Except.error err) => some (err, self)
  | some (Except.ok registers) =>
    let dc := limitDutyCycle_tenthPct dutyCycle_tenthPct
    let timRegCCRx := calculateCCRx dc registers.timRegARR
    match Mutex_Acquire self.mutex TIM_MUTEX_TIMEOUT_MS with
    | (false, m) => some (PWM_Err.resourceBlocked, { self with mutex := m })
    | (true, m) =>
      let rel := Mutex_Release m
      some (PWM_Err.none,
        { state := if self.state = PWM_State.uninitialized then PWM_State.stopped else self.state,
          timRegPSC := registers.timRegPSC,
          timRegARR := registers.timRegARR,
          timRegCCR := timRegCCRx,
          mutex := rel.2 })

/-- Embedding of PWM_Start.  The HAL_TIM_PWM_Start result is out of scope
hardware behaviour and is passed in as halOk. -/
def PWM_Start (self : PWMSys) (halOk : Bool) : PWM_Err × PWMSys :=
  if self.state = PWM_State.uninitialized then (PWM_Err.uninitialized, self)
  else if self.state = PWM_State.started then (PWM_Err.started, self)
  else
    match Mutex_Acquire self.mutex TIM_MUTEX_TIMEOUT_MS with
    | (false, m) => (PWM_Err.resourceBlocked, { self with mutex := m })
    | (true, m) =>
      if halOk = false then
        let rel := Mutex_Release m
        (PWM_Err.hal, { self with mutex := rel.2 })
      else
        let rel := Mutex_Release m
        (PWM_Err.none, { self with state := PWM_State.started, mutex := rel.2 })

/-- Embedding of PWM_Stop exactly as the source is written: the second guard
tests state == STATE_STARTED and returns PWM_ERR_STOPPED, so the function only
proceeds (and sets the state to stopped) from the stopped state. -/
def PWM_Stop (self : PWMSys) (halOk : Bool) : PWM_Err × PWMSys :=
  if self.state = PWM_State.uninitialized then (PWM_Err.uninitialized, self)
  else if self.state = PWM_State.started then (PWM_Err.stopped, self)
  else
    match Mutex_Acquire self.mutex TIM_MUTEX_TIMEOUT_MS with
    | (false, m) => (PWM_Err.resourceBlocked, { self with mutex := m })
    | (true, m) =>
      if halOk = false then
        let rel := Mutex_Release m
        (PWM_Err.hal, { self with mutex := rel.2 })
      else
        let rel := Mutex_Release m
        (PWM_Err.none, { self with state := PWM_State.stopped, mutex := rel.2 })

/-- Embedding of PWM_SetDutyCycle: clamps the request, recomputes the compare
value against the current auto-reload register under the lock, and writes it. -/
def PWM_SetDutyCycle (self : PWMSys) (dutyCycle_tenthPct : Nat) : PWM_Err × PWMSys :=
  if self.state = PWM_State.uninitialized then (PWM_Err.uninitialized, self)
  else
    let dc := limitDutyCycle_tenthPct dutyCycle_tenthPct
    match Mutex_Acquire self.mutex TIM_MUTEX_TIMEOUT_MS with
    | (false, m) => (PWM_Err.resourceBlocked, { self with mutex := m })
    | (true, m) =>
      let timRegCCR : Nat :=
        if DUTY_CYCLE_MIN_TENTH_PCT < dc then
          if dc < DUTY_CYCLE_MAX_TENTH_PCT then calculateCCRx dc self.timRegARR
          else self.timRegARR
        else 0
      let rel := Mutex_Release m
      (PWM_Err.none, { self with timRegCCR := timRegCCR, mutex := rel.2 })

/-! Timer.c (src/unnamed/part_006): channel validation and mode claims. -/

def TIMER_CHANNEL_1 : Nat := 0

def TIMER_CHANNEL_2 : Nat := 1

def TIMER_CHANNEL_3 : Nat := 2

def TIMER_CHANNEL_4 : Nat := 3

def TIMER_CHANNEL_5 : Nat := 4

def TIMER_CHANNEL_6 : Nat := 5

/-- Error codes of the Timer driver (Timer_Err_t). -/
inductive Timer_Err_t
  | none
  | nullParam
  | invalidParam
  | modeReset
  | modeInvalid
  | modeConflict
deriving DecidableEq

/-- Channel modes of the Timer driver (Channel_Mode_t). -/
inductive Channel_Mode_t
  | reset
  | pwm
  | encoder
deriving DecidableEq

/-- Identity of the physical TIM peripheral the Timer instance wraps; the
source distinguishes blocks by comparing the register pointer against the
TIMx base addresses of the STM32H5 family. -/
inductive TIM_Block
  | tim1
  | tim2
  | tim3
  | tim4
  | tim5
  | tim6
  | tim7
  | tim8
  | tim12
  | tim13
  | tim14
  | tim15
  | tim16
  | tim17
deriving DecidableEq

/-- The six-entry channelMode array of the Timer struct. -/
structure ChannelModes where
  m0 : Channel_Mode_t
  m1 : Channel_Mode_t
  m2 : Channel_Mode_t
  m3 : Channel_Mode_t
  m4 : Channel_Mode_t
  m5 : Channel_Mode_t
deriving DecidableEq

/-- Read channelMode at an index.  Indices six and above would be an
out-of-bounds read in C; every read in the embedded functions is either a
constant index zero or one, or is guarded by isChannelValid, so the default
arm is unreachable. -/
def ChannelModes.get (cm : ChannelModes) (i : Nat) : Channel_Mode_t :=
  match i with
  | 0 => cm.m0
  | 1 => cm.m1
  | 2 => cm.m2
  | 3 => cm.m3
  | 4 => cm.m4
  | 5 => cm.m5
  | _ => Channel_Mode_t.reset

/-- Write channelMode at an index (indices above five leave the array
unchanged; such writes do not occur in the embedded functions). -/
def ChannelModes.set (cm : ChannelModes) (i : Nat) (m : Channel_Mode_t) : ChannelModes :=
  match i with
  | 0 => { cm with m0 := m }
  | 1 => { cm with m1 := m }
  | 2 => { cm with m2 := m }
  | 3 => { cm with m3 := m }
  | 4 => { cm with m4 := m }
  | 5 => { cm with m5 := m }
  | _ => cm

/-- The Timer struct: the wrapped TIM block identity and the channel mode
array.  The TIM handle and mutex pointer fields are not needed by the claims
about the mode-claim functions. -/
structure Timer where
  tim : TIM_Block
  channelMode : ChannelModes
deriving DecidableEq

/-- Embedding of isChannelValid exactly as written in the source: the guard
chains the six inequality tests with logical OR. -/
def isChannelValid (channel : Nat) : Bool :=
  if channel ≠ TIMER_CHANNEL_1 ∨ channel ≠ TIMER_CHANNEL_2 ∨ channel ≠ TIMER_CHANNEL_3 ∨
      channel ≠ TIMER_CHANNEL_4 ∨ channel ≠ TIMER_CHANNEL_5 ∨ channel ≠ TIMER_CHANNEL_6 then
    false
  else
    true

/-- Embedding of isPWMChannelValid exactly as written in the source (same OR
chain over the first four channels). -/
def isPWMChannelValid (channel : Nat) : Bool :=
  if channel ≠ TIMER_CHANNEL_1 ∨ channel ≠ TIMER_CHANNEL_2 ∨ channel ≠ TIMER_CHANNEL_3 ∨
      channel ≠ TIMER_CHANNEL_4 then
    false
  else
    true

/-- Embedding of validatePWMChannel, preserving the OR chain of the TIM12 and
TIM15 branch as written. -/
def validatePWMChannel (timPtr : TIM_Block) (channel : Nat) : Bool :=
  if isPWMChannelValid channel = false then false
  else if timPtr = TIM_Block.tim6 ∨ timPtr = TIM_Block.tim7 then false
  else if timPtr = TIM_Block.tim12 ∨ timPtr = TIM_Block.tim15 then
    if channel ≠ TIMER_CHANNEL_1 ∨ channel ≠ TIMER_CHANNEL_2 then false else true
  else if timPtr = TIM_Block.tim13 ∨ timPtr = TIM_Block.tim14 ∨
      timPtr = TIM_Block.tim16 ∨ timPtr = TIM_Block.tim17 then
    if channel ≠ TIMER_CHANNEL_1 then false else true
  else true

/-- Embedding of validateEncoderTimer. -/
def validateEncoderTimer (timPtr : TIM_Block) : Bool :=
  if timPtr = TIM_Block.tim6 ∨ timPtr = TIM_Block.tim7 then false
  else if timPtr = TIM_Block.tim12 ∨ timPtr = TIM_Block.tim15 then false
  else if timPtr = TIM_Block.tim13 ∨ timPtr = TIM_Block.tim14 ∨
      timPtr = TIM_Block.tim16 ∨ timPtr = TIM_Block.tim17 then false
  else true

/-- Embedding of Timer_IsModeEncoder. -/
def Timer_IsModeEncoder (self : Timer) : Bool :=
  if self.channelMode.get TIMER_CHANNEL_1 = Channel_Mode_t.encoder ∨
      self.channelMode.get TIMER_CHANNEL_2 = Channel_Mode_t.encoder then
    true
  else
    false

/-- Embedding of Timer_SetModePWM. -/
def Timer_SetModePWM (self : Timer) (channel : Nat) : Timer_Err_t × Timer :=
  if isChannelValid channel = false then (Timer_Err_t.invalidParam, self)
  else if validatePWMChannel self.tim channel = false then (Timer_Err_t.modeInvalid, self)
  else if Timer_IsModeEncoder self = true then (Timer_Err_t.modeConflict, self)
  else if self.channelMode.get channel ≠ Channel_Mode_t.reset then
    (Timer_Err_t.modeConflict, self)
  else
    (Timer_Err_t.none,
      { self with channelMode := self.channelMode.set channel Channel_Mode_t.pwm })

/-- Embedding of Timer_SetModeEncoder exactly as written: the conflict guard
joins the two already-claimed tests with logical AND. -/
def Timer_SetModeEncoder (self : Timer) : Timer_Err_t × Timer :=
  if validateEncoderTimer self.tim = false then (Timer_Err_t.modeInvalid, self)
  else if self.channelMode.get TIMER_CHANNEL_1 ≠ Channel_Mode_t.reset ∧
      self.channelMode.get TIMER_CHANNEL_2 ≠ Channel_Mode_t.reset then
    (Timer_Err_t.modeConflict, self)
  else
    let cm := (self.channelMode.set TIMER_CHANNEL_1 Channel_Mode_t.encoder).set
      TIMER_CHANNEL_2 Channel_Mode_t.encoder
    (Timer_Err_t.none, { self with channelMode := cm })

/-! Encoder.c (src/h563zit6_encoder/Drivers/Encoder.c): the revisions without
a mutex.  The observable state is the Init.Period field of the handle (set to
maxCount by Encoder_Init) and the 16-bit TIM counter register. -/

structure EncoderSys where
  timInitPeriod : Nat
  timCNT : Nat
deriving DecidableEq

/-- Embedding of Encoder_GetMaxCount: the uint16 return narrows the uint32
Init.Period field. -/
def Encoder_GetMaxCount (self : EncoderSys) : Nat :=
  self.timInitPeriod % U16

/-- Embedding of Encoder_GetCount: the 16-bit counter reinterpreted as a
signed 16-bit integer. -/
def Encoder_GetCount (self : EncoderSys) : Int :=
  let u := self.timCNT % U16
  if u < 32768 then (u : Int) else (u : Int) - 65536

/-- Embedding of Encoder_SetCount.  The int16 argument is cast to uint16
(reduction modulo 2 to the 16 of the two-complement value); when that value
exceeds maxCount it is reduced modulo maxCount.  A zero maxCount would make
that a modulo by zero, undefined in C, modelled as none. -/
def Encoder_SetCount (self : EncoderSys) (count : Int) : Option EncoderSys :=
  let unsignedCount := (count % (U16 : Int)).toNat
  let maxCount := Encoder_GetMaxCount self
  if maxCount < unsignedCount then
    if maxCount = 0 then Option.none
    else some { self with timCNT := unsignedCount % maxCount }
  else
    some { self with timCNT := unsignedCount }

/-- Embedding of Encoder_ResetCount. -/
def Encoder_ResetCount (self : EncoderSys) : Option EncoderSys :=
  Encoder_SetCount self 0

/-- Embedding of Encoder_SetCounter (the later revision in the same file);
its body performs the identical computation as Encoder_SetCount. -/
def Encoder_SetCounter (self : EncoderSys) (count : Int) : Option EncoderSys :=
  let unsignedCount := (count % (U16 : Int)).toNat
  let maxCount := Encoder_GetMaxCount self
  if maxCount < unsignedCount then
    if maxCount = 0 then Option.none
    else some { self with timCNT := unsignedCount % maxCount }
  else
    some { self with timCNT := unsignedCount }

/-- Embedding of Encoder_ResetCounter of the same revision. -/
def Encoder_ResetCounter (self : EncoderSys) : Option EncoderSys :=
  Encoder_SetCounter self 0

/-! Encoder.c, mutex-guarded revision (src/unnamed/part_000). -/

namespace EncoderRtos

/-- State of the mutex-guarded encoder: the Init.Period field, the 16-bit
counter, the running flag (HAL encoder start and stop enable and disable the
counting), and the TIM mutex. -/
structure EncoderSys where
  timInitPeriod : Nat
  timCNT : Nat
  running : Bool
  mutex : Mutex
deriving DecidableEq

/-- Embedding of Encoder_Start (part_000): a failed acquire returns silently
(the function is void); on success the HAL start runs and the mutex is
released. -/
def Encoder_Start (self : EncoderSys) : EncoderSys :=
  match Mutex_Acquire self.mutex TIM_MUTEX_TIMEOUT_MS with
  | (false, m) => { self with mutex := m }
  | (true, m) =>
    let rel := Mutex_Release m
    { self with running := true, mutex := rel.2 }

/-- Embedding of Encoder_Stop (part_000). -/
def Encoder_Stop (self : EncoderSys) : EncoderSys :=
  match Mutex_Acquire self.mutex TIM_MUTEX_TIMEOUT_MS with
  | (false, m) => { self with mutex := m }
  | (true, m) =>
    let rel := Mutex_Release m
    { self with running := false, mutex := rel.2 }

/-- Embedding of Encoder_GetMaxCount (part_000) exactly as written: on a
failed acquire it returns zero; on a successful acquire it returns the
Init.Period field directly, and the Mutex_Release statement that follows the
return in the source is unreachable, so the mutex stays acquired. -/
def Encoder_GetMaxCount (self : EncoderSys) : Nat × EncoderSys :=
  match Mutex_Acquire self.mutex TIM_MUTEX_TIMEOUT_MS with
  | (false, m) => (0, { self with mutex := m })
  | (true, m) => (self.timInitPeriod % U16, { self with mutex := m })

/-- Embedding of Encoder_GetCounter (part_000): reads the counter without the
mutex, as the source comment states. -/
def Encoder_GetCounter (self : EncoderSys) : Int :=
  let u := self.timCNT % U16
  if u < 32768 then (u : Int) else (u : Int) - 65536

/-- Embedding of Encoder_SetCounter (part_000): reads maxCount through
Encoder_GetMaxCount (which mutates the mutex), reduces the value, then
acquires the mutex for the counter write.  Modulo by a zero maxCount is
undefined in C, modelled as none. -/
def Encoder_SetCounter (self : EncoderSys) (count : Int) : Option EncoderSys :=
  let unsignedCount := (count % (U16 : Int)).toNat
  let gm := Encoder_GetMaxCount self
  if gm.1 < unsignedCount ∧ gm.1 = 0 then Option.none
  else
    let uc := if gm.1 < unsignedCount then unsignedCount % gm.1 else unsignedCount
    match Mutex_Acquire gm.2.mutex TIM_MUTEX_TIMEOUT_MS with
    | (false, m) => some { gm.2 with mutex := m }
    | (true, m) =>
      let rel := Mutex_Release m
      some { gm.2 with timCNT := uc, mutex := rel.2 }

/-- Embedding of Encoder_ResetCounter (part_000). -/
def Encoder_ResetCounter (self : EncoderSys) : Option EncoderSys :=
  Encoder_SetCounter self 0

end EncoderRtos

/-! DRV8870.c (src/unnamed/part_004): dual-channel motor driver built on two
PWM instances. -/

def DRIVE_STRENGTH_MIN_TENTH_PCT : Nat := 0

def DRIVE_STRENGTH_MAX_TENTH_PCT : Nat := 1000

def DUTY_CYCLE_STOPPED_TENTH_PCT : Nat := 1000

def DUTY_CYCLE_COAST_TENTH_PCT : Nat := 0

/-- Error codes of the motor driver (DRV8870_Err_t). -/
inductive DRV8870_Err
  | none
  | nullParam
  | invalidParam
  | resourceBlocked
  | uninitialized
  | pwmInit
  | pwmState
deriving DecidableEq

/-- Drive directions (DRV8870_Direction_t). -/
inductive DRV8870_Direction
  | stopped
  | coast
  | forward
  | reverse
deriving DecidableEq

/-- States of the motor driver (State_t in DRV8870.c). -/
inductive DRV8870_State
  | uninitialized
  | driving
deriving DecidableEq

/-- Duty-cycle pair for the IN0 and IN1 lines (DutyCycles_t). -/
structure DutyCycles_t where
  in0_tenthPct : Nat
  in1_tenthPct : Nat
deriving DecidableEq

/-- Embedding of limitStrength_tenthPct. -/
def limitStrength_tenthPct (strength_tenthPct : Nat) : Nat :=
  if DRIVE_STRENGTH_MAX_TENTH_PCT < strength_tenthPct then DRIVE_STRENGTH_MAX_TENTH_PCT
  else strength_tenthPct

/-- Embedding of convertStrengthToDutyCycle: drive strength and duty cycle are
inversely proportional. -/
def convertStrengthToDutyCycle (strength_tenthPct : Nat) : Nat :=
  DRIVE_STRENGTH_MAX_TENTH_PCT - limitStrength_tenthPct strength_tenthPct

/-- Embedding of calculateDutyCycles. -/
def calculateDutyCycles (direction : DRV8870_Direction) (strength_tenthPct : Nat) :
    DutyCycles_t :=
  if direction = DRV8870_Direction.coast then
    { in0_tenthPct := DUTY_CYCLE_COAST_TENTH_PCT, in1_tenthPct := DUTY_CYCLE_COAST_TENTH_PCT }
  else if direction = DRV8870_Direction.stopped ∨
      strength_tenthPct = DRIVE_STRENGTH_MIN_TENTH_PCT then
    { in0_tenthPct := DUTY_CYCLE_STOPPED_TENTH_PCT, in1_tenthPct := DUTY_CYCLE_STOPPED_TENTH_PCT }
  else
    let dutyCycle := convertStrengthToDutyCycle strength_tenthPct
    if direction = DRV8870_Direction.forward then
      { in0_tenthPct := DUTY_CYCLE_STOPPED_TENTH_PCT, in1_tenthPct := dutyCycle }
    else
      { in0_tenthPct := dutyCycle, in1_tenthPct := DUTY_CYCLE_STOPPED_TENTH_PCT }

/-- Embedding of the PWMErrMap constant array.  The C array has no entry for
PWM_ERR_HAL; indexing it with that value would read out of bounds, modelled as
none. -/
def PWMErrMap (e : PWM_Err) : Option DRV8870_Err :=
  match e with
  | PWM_Err.none => some DRV8870_Err.none
  | PWM_Err.nullParam => some DRV8870_Err.nullParam
  | PWM_Err.invalidParam => some DRV8870_Err.invalidParam
  | PWM_Err.resourceBlocked => some DRV8870_Err.resourceBlocked
  | PWM_Err.uninitialized => some DRV8870_Err.pwmInit
  | PWM_Err.started => some DRV8870_Err.pwmState
  | PWM_Err.stopped => some DRV8870_Err.pwmState
  | PWM_Err.hal => Option.none

/-- The DRV8870 struct: two PWM instances and the driver state. -/
structure DRV8870 where
  pwmIN0 : PWMSys
  pwmIN1 : PWMSys
  state : DRV8870_State
deriving DecidableEq

/-- Embedding of DRV8870_Drive: calculates the IN0 and IN1 duty cycles for the
requested direction and strength and applies them with two successive
PWM_SetDutyCycle calls, aborting after the first failing call. -/
def DRV8870_Drive (self : DRV8870) (direction : DRV8870_Direction)
    (strength_tenthPct : Nat) : Option (DRV8870_Err × DRV8870) :=
  if self.state ≠ DRV8870_State.driving then some (DRV8870_Err.uninitialized, self)
  else
    let dutyCycles := calculateDutyCycles direction strength_tenthPct
    let r0 := PWM_SetDutyCycle self.pwmIN0 dutyCycles.in0_tenthPct
    match PWMErrMap r0.1 with
    | Option.none => Option.none
    | some err0 =>
      let self0 := { self with pwmIN0 := r0.2 }
      if err0 ≠ DRV8870_Err.none then some (err0, self0)
      else
        let r1 := PWM_SetDutyCycle self0.pwmIN1 dutyCycles.in1_tenthPct
        match PWMErrMap r1.1 with
        | Option.none => Option.none
        | some err1 =>
          let self1 := { self0 with pwmIN1 := r1.2 }
          if err1 ≠ DRV8870_Err.none then some (err1, self1)
          else some (DRV8870_Err.none, self1)

/-- Embedding of DRV8870_Brake as written: it delegates to DRV8870_Drive with
the COAST direction and minimum strength. -/
def DRV8870_Brake (self : DRV8870) : Option (DRV8870_Err × DRV8870) :=
  DRV8870_Drive self DRV8870_Direction.coast DRIVE_STRENGTH_MIN_TENTH_PCT

/-- Embedding of DRV8870_Coast as written: it delegates to DRV8870_Drive with
the STOPPED direction and minimum strength. -/
def DRV8870_Coast (self : DRV8870) : Option (DRV8870_Err × DRV8870) :=
  DRV8870_Drive self DRV8870_Direction.stopped DRIVE_STRENGTH_MIN_TENTH_PCT

/-! Shared lemmas about the rounding-divide helpers. -/

/-- Characterization of UIntDivideWithRound for in-range inputs: the wrap test
in the source detects exactly whether dividend + round reached 2 to the 32. -/
theorem UIntDivideWithRound_eq (dividend divisor round : Nat)
    (hd : dividend < U32) (hr : round < U32) :
    UIntDivideWithRound dividend divisor round =
      if dividend + round < U32 then (dividend + round) / divisor
      else dividend / divisor := by
  have h32 : U32 = 4294967296 := rfl
  simp only [UIntDivideWithRound]
  by_cases h : dividend + round < U32
  · rw [Nat.mod_eq_of_lt h, if_neg (by omega), if_pos h]
  · have hmod : (dividend + round) % U32 = dividend + round - U32 := by
      rw [Nat.mod_eq_sub_mod (by omega)]
      exact Nat.mod_eq_of_lt (by omega)
    rw [hmod, if_pos (by omega), if_neg h]

/-! C1 -/

/-- C1: the claim states that Stop succeeds exactly from the Started state and
transitions to Stopped, with an error and unchanged state otherwise.  The code
as written has the guard inverted: from Started it returns PWM_ERR_STOPPED and
leaves the state Started, while from Stopped it proceeds and succeeds.  This
theorem evaluates the embedded PWM_Stop at both states, exhibiting the
divergence at the failing input (a started channel). -/
theorem C1_pwm_stop_guard_inverted :
    PWM_Stop ⟨PWM_State.started, 0, 1000, 500, ⟨false⟩⟩ true =
      (PWM_Err.stopped, ⟨PWM_State.started, 0, 1000, 500, ⟨false⟩⟩) ∧
    PWM_Stop ⟨PWM_State.stopped, 0, 1000, 500, ⟨false⟩⟩ true =
      (PWM_Err.none, ⟨PWM_State.stopped, 0, 1000, 500, ⟨false⟩⟩) := by
  decide

/-! C2 -/

/-- C2: the claim states that Timer_SetModePWM succeeds for every in-range
channel on a capable, unclaimed timer and returns InvalidParameter only for
out-of-range indices.  Because isChannelValid chains its six inequality tests
with OR, it returns false for every channel, so Timer_SetModePWM returns
TIMER_ERR_INVALID_PARAM for every timer state and every channel, leaving the
timer unchanged. -/
theorem C2_set_mode_pwm_always_invalid_param (t : Timer) (channel : Nat) :
    isChannelValid channel = false ∧
    Timer_SetModePWM t channel = (Timer_Err_t.invalidParam, t) := by
  have hch : isChannelValid channel = false := by
    simp only [isChannelValid, TIMER_CHANNEL_1, TIMER_CHANNEL_2, TIMER_CHANNEL_3,
      TIMER_CHANNEL_4, TIMER_CHANNEL_5, TIMER_CHANNEL_6]
    rw [if_pos (by omega)]
  exact ⟨hch, by simp [Timer_SetModePWM, hch]⟩

/-! C3 -/

/-- C3: the claim states that the quadrature claim fails with ModeConflict
whenever channel 0 or channel 1 is already claimed, leaving both modes
unchanged.  Because the guard in Timer_SetModeEncoder joins the two tests with
AND, a timer with only channel 0 claimed for PWM is accepted: the call
succeeds and overwrites both channel modes with encoder mode.  This theorem
evaluates the embedded code at that failing input. -/
theorem C3_encoder_claim_overwrites_single_claimed_channel :
    Timer_SetModeEncoder
        ⟨TIM_Block.tim1, ⟨Channel_Mode_t.pwm, Channel_Mode_t.reset, Channel_Mode_t.reset,
          Channel_Mode_t.reset, Channel_Mode_t.reset, Channel_Mode_t.reset⟩⟩ =
      (Timer_Err_t.none,
        ⟨TIM_Block.tim1, ⟨Channel_Mode_t.encoder, Channel_Mode_t.encoder, Channel_Mode_t.reset,
          Channel_Mode_t.reset, Channel_Mode_t.reset, Channel_Mode_t.reset⟩⟩) := by
  decide

/-! C9 -/

/-- C9: the claim states that every operation that successfully acquires the
shared mutex releases it before returning.  In the mutex-guarded encoder
revision, Encoder_GetMaxCount returns the period immediately after a
successful acquire and its Mutex_Release statement stands after the return,
so it never executes: evaluating the embedding on an encoder whose mutex is
free shows the mutex still held on return. -/
theorem C9_get_max_count_leaks_mutex :
    (EncoderRtos.Encoder_GetMaxCount ⟨4096, 0, false, ⟨false⟩⟩).1 = 4096 ∧
    (EncoderRtos.Encoder_GetMaxCount ⟨4096, 0, false, ⟨false⟩⟩).2.mutex.acquired = true := by
  decide

/-! C10 -/

/-- C10: DRV8870_Brake is definitionally DRV8870_Drive with the Coast
direction, whose duty-cycle pattern is zero on both lines (full release), and
DRV8870_Coast is definitionally DRV8870_Drive with the Stopped direction,
whose duty-cycle pattern is 1000 on both lines (the braked pattern); the
final conjuncts evaluate the compare-register effect on a concrete driving
instance with auto-reload 1000. -/
theorem C10_brake_and_coast_are_drive_calls :
    (∀ self : DRV8870,
        DRV8870_Brake self =
          DRV8870_Drive self DRV8870_Direction.coast DRIVE_STRENGTH_MIN_TENTH_PCT) ∧
    calculateDutyCycles DRV8870_Direction.coast DRIVE_STRENGTH_MIN_TENTH_PCT =
      { in0_tenthPct := 0, in1_tenthPct := 0 } ∧
    (∀ self : DRV8870,
        DRV8870_Coast self =
          DRV8870_Drive self DRV8870_Direction.stopped DRIVE_STRENGTH_MIN_TENTH_PCT) ∧
    calculateDutyCycles DRV8870_Direction.stopped DRIVE_STRENGTH_MIN_TENTH_PCT =
      { in0_tenthPct := 1000, in1_tenthPct := 1000 } ∧
    DRV8870_Brake
        ⟨⟨PWM_State.started, 0, 1000, 700, ⟨false⟩⟩, ⟨PWM_State.started, 0, 1000, 300, ⟨false⟩⟩,
          DRV8870_State.driving⟩ =
      some (DRV8870_Err.none,
        ⟨⟨PWM_State.started, 0, 1000, 0, ⟨false⟩⟩, ⟨PWM_State.started, 0, 1000, 0, ⟨false⟩⟩,
          DRV8870_State.driving⟩) ∧
    DRV8870_Coast
        ⟨⟨PWM_State.started, 0, 1000, 700, ⟨false⟩⟩, ⟨PWM_State.started, 0, 1000, 300, ⟨false⟩⟩,
          DRV8870_State.driving⟩ =
      some (DRV8870_Err.none,
        ⟨⟨PWM_State.started, 0, 1000, 1000, ⟨false⟩⟩, ⟨PWM_State.started, 0, 1000, 1000, ⟨false⟩⟩,
          DRV8870_State.driving⟩) := by
  refine ⟨fun _ => rfl, by decide, fun _ => rfl, by decide, by decide, by decide⟩

/-! C6 -/

/-- C6: for every 32-bit dividend and nonzero 32-bit divisor, the rounding
divide returns (dividend + divisor / 2) / divisor when adding the bias does
not wrap 32-bit arithmetic and falls back to plain truncating division when it
would; the ceiling divide behaves identically with bias divisor - 1.  Both
are total functions, so no fault occurs. -/
theorem C6_rounding_and_ceiling_divide_overflow_rule (dividend divisor : Nat)
    (hd : dividend < U32) (hv : divisor < U32) (hnz : divisor ≠ 0) :
    UIntRoundingDivide dividend divisor =
      (if dividend + divisor / 2 < U32 then (dividend + divisor / 2) / divisor
        else dividend / divisor) ∧
    UIntCeilingDivide dividend divisor =
      (if dividend + (divisor - 1) < U32 then (dividend + (divisor - 1)) / divisor
        else dividend / divisor) := by
  constructor
  · exact UIntDivideWithRound_eq dividend divisor (divisor / 2) hd (by omega)
  · exact UIntDivideWithRound_eq dividend divisor (divisor - 1) hd (by omega)

/-- Witness for C6 at a concrete input. -/
theorem C6_witness :
    UIntRoundingDivide 7 2 =
      (if 7 + 2 / 2 < U32 then (7 + 2 / 2) / 2 else 7 / 2) ∧
    UIntCeilingDivide 7 2 =
      (if 7 + (2 - 1) < U32 then (7 + (2 - 1)) / 2 else 7 / 2) :=
  C6_rounding_and_ceiling_divide_overflow_rule 7 2 (by decide) (by decide) (by decide)

/-! C5 -/

/-- C5 counterexample: the claim states that with a lock on which Acquire
always fails, every mutating PWM or Encoder operation returns ResourceBlocked.
On a started channel whose mutex is held (so Acquire always fails), PWM_Stop
returns PWM_ERR_STOPPED, not PWM_ERR_RESOURCE_BLOCKED, refuting the claim at
this concrete input (the state is nevertheless unchanged). -/
theorem C5_counterexample_stop_error_not_resource_blocked :
    (PWM_Stop ⟨PWM_State.started, 0, 1000, 500, ⟨true⟩⟩ true).1 = PWM_Err.stopped ∧
    PWM_Err.stopped ≠ PWM_Err.resourceBlocked ∧
    (PWM_Stop ⟨PWM_State.started, 0, 1000, 500, ⟨true⟩⟩ true).2 =
      ⟨PWM_State.started, 0, 1000, 500, ⟨true⟩⟩ := by
  decide

/-- C5 amended: with a lock on which Acquire always fails, every mutating PWM
operation that passes its parameter and state guards (Init with arguments the
frequency computation accepts, Start and Stop from the state their guards
allow, SetDutyCycle on an initialized channel) returns ResourceBlocked and
leaves the whole observable state unmodified.  The mutex-guarded Encoder
operations return no error code (they are void): Start and Stop leave the
state unmodified, and for SetCounter the failed-lock Encoder_GetMaxCount call
reads back a maxCount of zero, so SetCounter leaves the state unmodified when
the unsigned reinterpretation of the count is zero but executes a modulo by
zero, which is undefined behaviour (modelled as none), for every nonzero
count. -/
theorem C5_amended_lock_failure_behaviour :
    (∀ (s : PWMSys) (sw dc src : Nat) (regs : FrequencyRegisters_t),
        s.mutex.acquired = true →
        calculateFrequencyRegisters sw src TIM_REG_ARR_MAX = some (Except.ok regs) →
        PWM_Init s sw dc src = some (PWM_Err.resourceBlocked, s)) ∧
    (∀ (s : PWMSys) (halOk : Bool), s.mutex.acquired = true →
        s.state = PWM_State.stopped →
        PWM_Start s halOk = (PWM_Err.resourceBlocked, s) ∧
        PWM_Stop s halOk = (PWM_Err.resourceBlocked, s)) ∧
    (∀ (s : PWMSys) (dc : Nat), s.mutex.acquired = true →
        s.state ≠ PWM_State.uninitialized →
        PWM_SetDutyCycle s dc = (PWM_Err.resourceBlocked, s)) ∧
    (∀ (e : EncoderRtos.EncoderSys) (count : Int), e.mutex.acquired = true →
        EncoderRtos.Encoder_Start e = e ∧ EncoderRtos.Encoder_Stop e = e ∧
        ((count % (U16 : Int)).toNat = 0 →
          EncoderRtos.Encoder_SetCounter e count = some e) ∧
        ((count % (U16 : Int)).toNat ≠ 0 →
          EncoderRtos.Encoder_SetCounter e count = Option.none)) := by
  have hacq : ∀ m : Mutex, m.acquired = true →
      Mutex_Acquire m TIM_MUTEX_TIMEOUT_MS = (false, m) := by
    intro m h
    simp [Mutex_Acquire, h]
  refine ⟨?_, ?_, ?_, ?_⟩
  · intro s sw dc src regs hm hreg
    simp only [PWM_Init, hreg, hacq s.mutex hm]
  · intro s halOk hm hstate
    have h1 : ¬s.state = PWM_State.uninitialized := by simp [hstate]
    have h2 : ¬s.state = PWM_State.started := by simp [hstate]
    constructor
    · simp only [PWM_Start, if_neg h1, if_neg h2, hacq s.mutex hm]
    · simp only [PWM_Stop, if_neg h1, if_neg h2, hacq s.mutex hm]
  · intro s dc hm hstate
    simp only [PWM_SetDutyCycle, if_neg hstate, hacq s.mutex hm]
  · intro e count hm
    refine ⟨?_, ?_, ?_, ?_⟩
    · simp only [EncoderRtos.Encoder_Start, hacq e.mutex hm]
    · simp only [EncoderRtos.Encoder_Stop, hacq e.mutex hm]
    · intro hu
      simp only [EncoderRtos.Encoder_SetCounter, EncoderRtos.Encoder_GetMaxCount,
        hacq e.mutex hm, hu]
      norm_num
    · intro hu
      simp only [EncoderRtos.Encoder_SetCounter, EncoderRtos.Encoder_GetMaxCount,
        hacq e.mutex hm]
      rw [if_pos ⟨Nat.pos_of_ne_zero hu, trivial⟩]

/-- Concrete PWM instance whose mutex is held, simulating a lock on which
Acquire always fails. -/
def pwmLockedStopped : PWMSys := ⟨PWM_State.stopped, 0, 34000, 17000, ⟨true⟩⟩

/-- Witness for C5 amended at concrete inputs. -/
theorem C5_amended_witness :
    PWM_Init pwmLockedStopped 5000 500 170000000 =
      some (PWM_Err.resourceBlocked, pwmLockedStopped) ∧
    PWM_Start pwmLockedStopped true = (PWM_Err.resourceBlocked, pwmLockedStopped) ∧
    PWM_SetDutyCycle pwmLockedStopped 250 = (PWM_Err.resourceBlocked, pwmLockedStopped) ∧
    EncoderRtos.Encoder_Start ⟨4096, 0, false, ⟨true⟩⟩ = ⟨4096, 0, false, ⟨true⟩⟩ ∧
    EncoderRtos.Encoder_SetCounter ⟨4096, 0, false, ⟨true⟩⟩ 0 =
      some ⟨4096, 0, false, ⟨true⟩⟩ ∧
    EncoderRtos.Encoder_SetCounter ⟨4096, 0, false, ⟨true⟩⟩ 5 = Option.none :=
  ⟨C5_amended_lock_failure_behaviour.1 pwmLockedStopped 5000 500 170000000
      ⟨34000, 0⟩ rfl rfl,
    (C5_amended_lock_failure_behaviour.2.1 pwmLockedStopped true rfl rfl).1,
    C5_amended_lock_failure_behaviour.2.2.1 pwmLockedStopped 250 rfl (by decide),
    (C5_amended_lock_failure_behaviour.2.2.2 ⟨4096, 0, false, ⟨true⟩⟩ 0 rfl).1,
    (C5_amended_lock_failure_behaviour.2.2.2 ⟨4096, 0, false, ⟨true⟩⟩ 0 rfl).2.2.1
      (by decide),
    (C5_amended_lock_failure_behaviour.2.2.2 ⟨4096, 0, false, ⟨true⟩⟩ 5 rfl).2.2.2
      (by decide)⟩

/-! C8 -/

/-- C8: for an initialized encoder with nonzero maxCount and any 16-bit value,
SetCount writes the unsigned reinterpretation reduced modulo maxCount when it
exceeds maxCount and writes it verbatim otherwise; SetCount 5000 with
maxCount 4096 writes 904; ResetCount is exactly SetCount 0, and the
SetCounter revision computes identically. -/
theorem C8_encoder_set_count_modular_write (s : EncoderSys) (count : Int)
    (hmax : Encoder_GetMaxCount s ≠ 0)
    (hlo : -32768 ≤ count) (hhi : count ≤ 32767) :
    Encoder_SetCount s count =
      some { s with timCNT :=
        if Encoder_GetMaxCount s < (count % (U16 : Int)).toNat then
          (count % (U16 : Int)).toNat % Encoder_GetMaxCount s
        else (count % (U16 : Int)).toNat } ∧
    Encoder_ResetCount s = Encoder_SetCount s 0 ∧
    Encoder_SetCounter s count = Encoder_SetCount s count ∧
    (∀ s2 : EncoderSys, s2.timInitPeriod = 4096 →
        Encoder_SetCount s2 5000 = some { s2 with timCNT := 904 }) := by
  refine ⟨?_, rfl, rfl, ?_⟩
  · simp only [Encoder_SetCount]
    by_cases h : Encoder_GetMaxCount s < (count % (U16 : Int)).toNat
    · rw [if_pos h, if_neg hmax, if_pos h]
    · rw [if_neg h, if_neg h]
  · intro s2 h2
    have hmc : Encoder_GetMaxCount s2 = 4096 := by
      simp [Encoder_GetMaxCount, h2, U16]
    simp only [Encoder_SetCount, hmc]
    norm_num [U16]
    decide

/-- Witness for C8 at a concrete input. -/
theorem C8_witness :
    Encoder_SetCount ⟨4096, 0⟩ 5000 = some ⟨4096, 904⟩ :=
  (C8_encoder_set_count_modular_write ⟨4096, 0⟩ 5000 (by decide)
      (by decide) (by decide)).2.2.2 ⟨4096, 0⟩ rfl

/-! C7 -/

/-- C7: converting a duty cycle in [0, 1000] to a compare value against a
period in [1000, 65535] and converting that compare value back yields a duty
cycle within plus or minus one of the original. -/
theorem C7_duty_cycle_roundtrip (dutyCycle_tenthPct period : Nat)
    (hdc : dutyCycle_tenthPct ≤ 1000) (hp1 : 1000 ≤ period) (hp2 : period ≤ 65535) :
    calculateDutyCycle_tenthPct period (calculateCCRx dutyCycle_tenthPct period) ≤
      dutyCycle_tenthPct + 1 ∧
    dutyCycle_tenthPct ≤
      calculateDutyCycle_tenthPct period (calculateCCRx dutyCycle_tenthPct period) + 1 := by
  have h32 : U32 = 4294967296 := rfl
  have h16 : U16 = 65536 := rfl
  have hP0 : period ≠ 0 := by omega
  have hAle : dutyCycle_tenthPct * period ≤ 65535000 := by
    calc dutyCycle_tenthPct * period ≤ 1000 * 65535 := Nat.mul_le_mul hdc hp2
    _ ≤ 65535000 := by norm_num
  have hccr : calculateCCRx dutyCycle_tenthPct period =
      (dutyCycle_tenthPct * period + 500) / 1000 := by
    simp only [calculateCCRx, if_neg hP0, DUTY_CYCLE_MAX_TENTH_PCT, UIntRoundingDivide]
    rw [Nat.mod_eq_of_lt (by omega)]
    rw [UIntDivideWithRound_eq _ _ _ (by omega) (by omega)]
    rw [if_pos (by omega)]
  have hccrle : (dutyCycle_tenthPct * period + 500) / 1000 ≤ 65535 := by omega
  have hback : calculateDutyCycle_tenthPct period ((dutyCycle_tenthPct * period + 500) / 1000) =
      ((dutyCycle_tenthPct * period + 500) / 1000 * 1000 + period / 2) / period % U16 := by
    simp only [calculateDutyCycle_tenthPct, if_neg hP0, DUTY_CYCLE_MAX_TENTH_PCT,
      UIntRoundingDivide]
    rw [Nat.mod_eq_of_lt
      (show (dutyCycle_tenthPct * period + 500) / 1000 * 1000 < U32 by omega)]
    rw [UIntDivideWithRound_eq _ _ _ (by omega) (by omega)]
    rw [if_pos (by omega)]
  rw [hccr, hback]
  -- linearize the products and quotients
  obtain ⟨A, hAeq⟩ : ∃ A, dutyCycle_tenthPct * period = A := ⟨_, rfl⟩
  rw [hAeq] at hAle ⊢
  obtain ⟨c1, hc1⟩ : ∃ c1, (A + 500) / 1000 = c1 := ⟨_, rfl⟩
  rw [hc1]
  obtain ⟨b, hb⟩ : ∃ b, (c1 * 1000 + period / 2) / period = b := ⟨_, rfl⟩
  rw [hb]
  have h1 := Nat.div_add_mod (c1 * 1000 + period / 2) period
  rw [hb] at h1
  obtain ⟨r2, hr2⟩ : ∃ r2, (c1 * 1000 + period / 2) % period = r2 := ⟨_, rfl⟩
  rw [hr2] at h1
  have h2 : r2 < period := by
    rw [← hr2]
    exact Nat.mod_lt _ (by omega)
  obtain ⟨PB, hPB⟩ : ∃ PB, period * b = PB := ⟨_, rfl⟩
  rw [hPB] at h1
  have hup : b < dutyCycle_tenthPct + 2 := by
    refine Nat.lt_of_mul_lt_mul_left
      (show period * b < period * (dutyCycle_tenthPct + 2) from ?_)
    have e : period * (dutyCycle_tenthPct + 2) = A + 2 * period := by
      rw [← hAeq]
      ring
    rw [hPB, e]
    omega
  have hlow : dutyCycle_tenthPct < b + 1 := by
    refine Nat.lt_of_mul_lt_mul_left
      (show period * dutyCycle_tenthPct < period * (b + 1) from ?_)
    have e1 : period * dutyCycle_tenthPct = A := by
      rw [← hAeq]
      ring
    have e2 : period * (b + 1) = PB + period := by
      rw [← hPB]
      ring
    rw [e1, e2]
    omega
  have hbmod : b % U16 = b := by
    rw [h16]
    omega
  rw [hbmod]
  omega

/-- Witness for C7 at a concrete input. -/
theorem C7_witness :
    calculateDutyCycle_tenthPct 1000 (calculateCCRx 500 1000) ≤ 500 + 1 ∧
    500 ≤ calculateDutyCycle_tenthPct 1000 (calculateCCRx 500 1000) + 1 :=
  C7_duty_cycle_roundtrip 500 1000 (by decide) (by decide) (by decide)

/-! C4 -/

/-- C4 counterexample: the claim asserts the recomputed frequency is within
one unit of rounding error of the requested one.  At switching frequency
4000000 Hz and source frequency 4003999999 Hz the search succeeds with
divider 1 (stored 0) and period 1000, yet the recomputed frequency,
round(4003999999 / (1 * 1000)) = 4004000, misses the request by 4000 Hz
(one part in a thousand, the truncation error of cycles), far more than one
unit. -/
theorem C4_counterexample_error_one_part_in_thousand :
    calculateFrequencyRegisters 4000000 4003999999 65535 =
      some (Except.ok { timRegARR := 1000, timRegPSC := 0 }) ∧
    calculateSwitchingFrequency_hz 4003999999 (0 + 1) 1000 = 4004000 ∧
    4000000 + 1 < 4004000 := by
  refine ⟨rfl, rfl, by norm_num⟩

/-- Bounds of the rounding divide against its divisor: the result q satisfies
B * q ≤ s + B / 2 and s < B * q + B, in both the rounded and the
overflow-fallback branch. -/
theorem UIntRoundingDivide_mul_bounds (s B : Nat) (hB : 1 ≤ B) (hBU : B < U32)
    (hs : s < U32) :
    B * UIntRoundingDivide s B ≤ s + B / 2 ∧ s < B * UIntRoundingDivide s B + B := by
  have h32 : U32 = 4294967296 := rfl
  rw [UIntRoundingDivide, UIntDivideWithRound_eq s B (B / 2) hs (by omega)]
  by_cases h : s + B / 2 < U32
  · rw [if_pos h]
    have h1 := Nat.div_add_mod (s + B / 2) B
    have h2 : (s + B / 2) % B < B := Nat.mod_lt _ (by omega)
    obtain ⟨q, hq⟩ : ∃ q, (s + B / 2) / B = q := ⟨_, rfl⟩
    rw [hq] at h1 ⊢
    obtain ⟨Y, hY⟩ : ∃ Y, B * q = Y := ⟨_, rfl⟩
    rw [hY] at h1 ⊢
    omega
  · rw [if_neg h]
    have h1 := Nat.div_add_mod s B
    have h2 : s % B < B := Nat.mod_lt _ (by omega)
    obtain ⟨q, hq⟩ : ∃ q, s / B = q := ⟨_, rfl⟩
    rw [hq] at h1 ⊢
    obtain ⟨Y, hY⟩ : ∃ Y, B * q = Y := ⟨_, rfl⟩
    rw [hY] at h1 ⊢
    omega

/-- Master error bound for the frequency search: if c approximates s / w
(hypotheses h1, h2), the register product B approximates c to within half the
prescaler p (h4, h5), the prescaler matches the ceiling search (h9), and f is
a rounding quotient of s by B (h13, h14), then f is within w / 1000 + 3
of w. -/
theorem freq_error_bound (w s c p B f : Nat)
    (hw : 1 ≤ w)
    (h1 : c * w ≤ s) (h2 : s < c * w + w)
    (h3 : 1000 ≤ c)
    (h4 : c ≤ B + p / 2) (h5 : B ≤ c + p / 2)
    (h8 : 1 ≤ p)
    (h9 : 65535 * p ≤ c + 65534)
    (h10 : s < 4294967296)
    (h13 : B * f ≤ s + B / 2) (h14 : s < B * f + B) :
    f ≤ w + w / 1000 + 3 ∧ w ≤ f + w / 1000 + 3 := by
  have hB1000 : 1000 ≤ B := by omega
  have hp2B : 2 * p ≤ B := by omega
  have n1 : c * w ≤ B * w + p / 2 * w := by
    have h := Nat.mul_le_mul_right w h4
    have e : (B + p / 2) * w = B * w + p / 2 * w := by ring
    rw [e] at h
    exact h
  have n4 : B * w ≤ c * w + p / 2 * w := by
    have h := Nat.mul_le_mul_right w h5
    have e : (c + p / 2) * w = c * w + p / 2 * w := by ring
    rw [e] at h
    exact h
  have n2 : p / 2 * w ≤ c + p := by
    by_cases hk : p / 2 = 0
    · rw [hk, Nat.zero_mul]
      exact Nat.zero_le _
    · have hp2 : 2 ≤ p := by omega
      have hc65536 : 65536 ≤ c := by omega
      have hw65537 : w ≤ 65537 := by
        by_contra hcon
        push_neg at hcon
        have hm : 65536 * 65538 ≤ c * w := Nat.mul_le_mul hc65536 (by omega)
        omega
      have hkp : p / 2 ≤ p - 1 := by omega
      have hck : 65535 * (p / 2) ≤ c := by
        calc 65535 * (p / 2) ≤ 65535 * (p - 1) := Nat.mul_le_mul_left 65535 hkp
        _ ≤ c := by omega
      calc p / 2 * w ≤ p / 2 * 65537 := Nat.mul_le_mul_left _ hw65537
      _ = 65535 * (p / 2) + 2 * (p / 2) := by ring
      _ ≤ c + p := by omega
  have n7 : 1000 * (w / 1000) ≤ B * (w / 1000) := Nat.mul_le_mul_right _ hB1000
  have hub : f < w + w / 1000 + 4 := by
    refine Nat.lt_of_mul_lt_mul_left (show B * f < B * (w + w / 1000 + 4) from ?_)
    have e : B * (w + w / 1000 + 4) = B * w + B * (w / 1000) + 4 * B := by ring
    rw [e]
    omega
  have hlb : w < f + w / 1000 + 4 := by
    refine Nat.lt_of_mul_lt_mul_left (show B * w < B * (f + w / 1000 + 4) from ?_)
    have e : B * (f + w / 1000 + 4) = B * f + B * (w / 1000) + 4 * B := by ring
    rw [e]
    omega
  omega

/-- C4 amended: for 32-bit inputs w (the requested switching frequency, not
zero) and s (the source frequency) whose cycle count s / w is at least 1000
and at most 65535 * 65535 (beyond that bound, the uint16 narrowing of the
prescaler truncates and the search faults or derails), the register search
succeeds with the documented two-pass algorithm, and the frequency recomputed
from the returned registers differs from w by at most w / 1000 + 3, an error
of about one part in a thousand rather than one unit. -/
theorem C4_amended_frequency_search (w s : Nat)
    (hw0 : w ≠ 0) (hwU : w < U32) (hsU : s < U32)
    (hcyc : 1000 ≤ s / w) (hcap : s / w ≤ 65535 * 65535) :
    ∃ registers : FrequencyRegisters_t,
      calculateFrequencyRegisters w s TIM_REG_ARR_MAX = some (Except.ok registers) ∧
      calculateSwitchingFrequency_hz s (registers.timRegPSC + 1) registers.timRegARR ≤
        w + w / 1000 + 3 ∧
      w ≤ calculateSwitchingFrequency_hz s (registers.timRegPSC + 1) registers.timRegARR +
        w / 1000 + 3 := by
  have h32 : U32 = 4294967296 := rfl
  have h16 : U16 = 65536 := rfl
  have hw1 : 1 ≤ w := by omega
  have hs0 : s ≠ 0 := by
    intro h
    rw [h] at hcyc
    simp [Nat.zero_div] at hcyc
  have h1 : s / w * w ≤ s := Nat.div_mul_le_self s w
  have h2 : s < s / w * w + w := by
    have hd := Nat.div_add_mod s w
    have hm : s % w < w := Nat.mod_lt _ (by omega)
    have e : w * (s / w) = s / w * w := by ring
    rw [e] at hd
    omega
  by_cases hcase : s / w ≤ 65535
  · -- cycles fit in the period field: prescaler is 1, period is cycles
    have hov : (if s / w < TIM_REG_ARR_MAX then s / w else TIM_REG_ARR_MAX) = s / w := by
      simp only [TIM_REG_ARR_MAX]
      split_ifs with h
      · rfl
      · omega
    have hceil : UIntCeilingDivide (s / w) (s / w) = 1 := by
      rw [UIntCeilingDivide, UIntDivideWithRound_eq _ _ _ (by omega) (by omega)]
      rw [if_pos (by omega)]
      exact Nat.div_eq_of_lt_le (by omega) (by omega)
    have hround : UIntRoundingDivide (s / w) 1 = s / w := by
      rw [UIntRoundingDivide, UIntDivideWithRound_eq _ _ _ (by omega) (by omega)]
      rw [if_pos (by omega)]
      norm_num
    have hcalc : calculateFrequencyRegisters w s TIM_REG_ARR_MAX =
        some (Except.ok { timRegARR := s / w, timRegPSC := 0 }) := by
      simp only [calculateFrequencyRegisters, DUTY_CYCLE_MAX_TENTH_PCT]
      rw [if_neg (by simp [hw0, hs0, TIM_REG_ARR_MAX])]
      rw [hov]
      rw [if_neg (by omega)]
      rw [hceil]
      have h1mod : 1 % U16 = 1 := by rw [h16]
      rw [h1mod]
      rw [if_neg (by omega)]
      rw [hround]
      rw [Nat.mod_eq_of_lt (show s / w < U16 by rw [h16]; omega)]
    refine ⟨⟨s / w, 0⟩, hcalc, ?_, ?_⟩
    all_goals
      have hfeq : calculateSwitchingFrequency_hz s (0 + 1) (s / w) =
          UIntRoundingDivide s (s / w) := by
        simp only [calculateSwitchingFrequency_hz]
        have e1 : (0 + 1) * (s / w) = s / w := by ring
        rw [e1, Nat.mod_eq_of_lt (by omega)]
      obtain ⟨hb1, hb2⟩ := UIntRoundingDivide_mul_bounds s (s / w) (by omega) (by omega) hsU
      have hmain := freq_error_bound w s (s / w) 1 (s / w) (UIntRoundingDivide s (s / w))
        hw1 h1 h2 (by omega) (by omega) (by omega) (by omega) (by omega) (by omega) hb1 hb2
    · show calculateSwitchingFrequency_hz s (0 + 1) (s / w) ≤ w + w / 1000 + 3
      rw [hfeq]
      exact hmain.1
    · show w ≤ calculateSwitchingFrequency_hz s (0 + 1) (s / w) + w / 1000 + 3
      rw [hfeq]
      exact hmain.2
  · -- cycles exceed the period field: prescaler is the ceiling quotient
    push_neg at hcase
    obtain ⟨c, hc⟩ : ∃ c, s / w = c := ⟨_, rfl⟩
    rw [hc] at hcyc hcap hcase h1 h2
    obtain ⟨p, hp⟩ : ∃ p, (c + 65534) / 65535 = p := ⟨_, rfl⟩
    have hp2 : 2 ≤ p := by omega
    have hple : p ≤ 65535 := by omega
    have hclo : 65535 * p ≤ c + 65534 := by omega
    have hchi : c ≤ 65535 * p := by omega
    have hceil : UIntCeilingDivide c 65535 = p := by
      rw [UIntCeilingDivide, UIntDivideWithRound_eq _ _ _ (by omega) (by omega)]
      rw [if_pos (by omega)]
      omega
    obtain ⟨o, ho⟩ : ∃ o, (c + p / 2) / p = o := ⟨_, rfl⟩
    have hod := Nat.div_add_mod (c + p / 2) p
    rw [ho] at hod
    obtain ⟨r, hr⟩ : ∃ r, (c + p / 2) % p = r := ⟨_, rfl⟩
    rw [hr] at hod
    have hrlt : r < p := by
      rw [← hr]
      exact Nat.mod_lt _ (by omega)
    have ho1 : 1 ≤ o := by
      rw [← ho, Nat.le_div_iff_mul_le (show 0 < p by omega)]
      omega
    have ho65535 : o ≤ 65535 := by
      have hlt : (c + p / 2) / p < 65536 := by
        rw [Nat.div_lt_iff_lt_mul (show 0 < p by omega)]
        omega
      omega
    have hpo : p * o ≤ c + p / 2 := by omega
    have hpo2 : c ≤ p * o + p / 2 := by omega
    have hov : (if c < TIM_REG_ARR_MAX then c else TIM_REG_ARR_MAX) = 65535 := by
      simp only [TIM_REG_ARR_MAX]
      split_ifs with h
      · omega
      · rfl
    have hrd : UIntRoundingDivide c p = o := by
      rw [UIntRoundingDivide, UIntDivideWithRound_eq _ _ _ (by omega) (by omega)]
      rw [if_pos (by omega), ho]
    have hcalc : calculateFrequencyRegisters w s TIM_REG_ARR_MAX =
        some (Except.ok { timRegARR := o, timRegPSC := p - 1 }) := by
      simp only [calculateFrequencyRegisters, DUTY_CYCLE_MAX_TENTH_PCT]
      rw [if_neg (by simp [hw0, hs0, TIM_REG_ARR_MAX])]
      rw [hc, hov]
      rw [if_neg (by omega)]
      rw [hceil]
      have hpmod : p % U16 = p := by rw [h16]; omega
      rw [hpmod]
      rw [if_neg (by omega)]
      rw [hrd]
      rw [Nat.mod_eq_of_lt (show o < U16 by rw [h16]; omega)]
    have hpp : p - 1 + 1 = p := by omega
    refine ⟨⟨o, p - 1⟩, hcalc, ?_, ?_⟩
    all_goals
      have hfeq : calculateSwitchingFrequency_hz s (p - 1 + 1) o =
          UIntRoundingDivide s (p * o) := by
        simp only [calculateSwitchingFrequency_hz]
        rw [hpp, Nat.mod_eq_of_lt (by omega)]
      obtain ⟨hb1, hb2⟩ := UIntRoundingDivide_mul_bounds s (p * o) (by omega) (by omega) hsU
      have hmain := freq_error_bound w s c p (p * o) (UIntRoundingDivide s (p * o))
        hw1 h1 h2 (by omega) (by omega) (by omega) (by omega) (by omega) (by omega) hb1 hb2
    · show calculateSwitchingFrequency_hz s (p - 1 + 1) o ≤ w + w / 1000 + 3
      rw [hfeq]
      exact hmain.1
    · show w ≤ calculateSwitchingFrequency_hz s (p - 1 + 1) o + w / 1000 + 3
      rw [hfeq]
      exact hmain.2

/-- Witness for C4 amended at the end-to-end input of the spec: 5000 Hz from
a 170 MHz source. -/
theorem C4_amended_witness :
    ∃ registers : FrequencyRegisters_t,
      calculateFrequencyRegisters 5000 170000000 TIM_REG_ARR_MAX =
        some (Except.ok registers) ∧
      calculateSwitchingFrequency_hz 170000000 (registers.timRegPSC + 1)
          registers.timRegARR ≤ 5000 + 5000 / 1000 + 3 ∧
      5000 ≤ calculateSwitchingFrequency_hz 170000000 (registers.timRegPSC + 1)
          registers.timRegARR + 5000 / 1000 + 3 :=
  C4_amended_frequency_search 5000 170000000 (by decide) (by decide) (by decide)
    (by decide) (by decide)
